import Mathlib

/-!
Verification of the coverage-analysis scripts
(`scripts/analyze-coverage-json.py` and `scripts/analyze-coverage.py`).

The Python functions are shallowly embedded as executable Lean
definitions: Python `int` becomes `ℤ` (or `Nat` where the value is a
count or an index), Python strings become `String`, fallible file reads
become `Except String (List String)` (an `Except.error` stands for a
missing file or any exception raised while reading), and Python `dict`
insertion order is modelled by association lists.
-/

/-! ### Range summarizer (`summarize_line_ranges`, analyze-coverage-json.py lines 145-172) -/

/-- Rendering of one closed range: `"N"` for a singleton, `"start-end"` otherwise. -/
def renderRange (s e : ℤ) : String :=
  if s = e then toString s else toString s ++ "-" ++ toString e

/-- One iteration of the accumulation loop of `summarize_line_ranges`:
state is `(start, end, ranges)`; a line equal to `end + 1` extends the
current run, anything else (including a duplicate of `end`) closes the
current run and starts a new one at that line. -/
def rangeStep : ℤ × ℤ × List String → ℤ → ℤ × ℤ × List String
  | (st, en, rs), line =>
    if line = en + 1 then (st, line, rs)
    else (line, line, rs ++ [renderRange st en])

/-- Separator used by `", ".join(...)`. -/
def commaSep : String := ", "

/-- Truncation marker appended when more than 3 ranges exist. -/
def ellipsisMark : String := " ..."

/-- `summarize_line_ranges(lines)`: sort, merge consecutive runs, render,
keep the first three ranges, append `" ..."` when more than three. -/
def summarize_line_ranges (lines : List ℤ) : String :=
  match List.insertionSort (· ≤ ·) lines with
  | [] => ""
  | x :: rest =>
    let acc := rest.foldl rangeStep (x, x, [])
    let ranges := acc.2.2 ++ [renderRange acc.1 acc.2.1]
    String.intercalate commaSep (ranges.take 3) ++
      (if ranges.length > 3 then ellipsisMark else "")

example : summarize_line_ranges [3, 3, 4] = "3, 3-4" := by decide
example : summarize_line_ranges [1, 2, 3, 7, 9, 10] = "1-3, 7, 9-10" := by decide

/-! ### Regular-expression primitives

The two scripts use `re.search` with the patterns
`\b(pub\s+)?(\basync\s+)?fn\s+([a-zA-Z_][a-zA-Z0-9_]*)` and
`impl\s+(?:.*?\s+for\s+)?([a-zA-Z_][a-zA-Z0-9_<>]*)` (the HTML script's
impl identifier class lacks `<>`).  They are embedded directly, with
`re.search`'s leftmost-position loop and the patterns' backtracking order
made explicit.  `\w`/`\s` are modelled on their ASCII ranges, matching the
Rust source text the scripts scan. -/

/-- Python `\s` (ASCII range). -/
def pySpace (c : Char) : Bool :=
  c = ' ' || c = '\t' || c = '\n' || c = '\r' || c = '\x0b' || c = '\x0c'

/-- Python `\w` on ASCII input: letter, digit or underscore. -/
def isWordChar (c : Char) : Bool := c.isAlpha || c.isDigit || c = '_'

/-- Leading identifier character `[a-zA-Z_]`. -/
def identStartChar (c : Char) : Bool := c.isAlpha || c = '_'

/-- Identifier continuation class of the direct-JSON impl pattern:
`[a-zA-Z0-9_<>]`. -/
def implContJson (c : Char) : Bool := isWordChar c || c = '<' || c = '>'

/-- Strip a literal off the head of the input. -/
def stripLit : List Char → List Char → Option (List Char)
  | [], s => some s
  | _ :: _, [] => none
  | c :: cs, d :: ds => if c = d then stripLit cs ds else none

/-- `\s+` when the next pattern element cannot start with whitespace: the
greedy maximal consumption is then the only viable one, so backtracking is
not needed.  Fails when no whitespace is present. -/
def ws1 (s : List Char) : Option (List Char) :=
  match s with
  | [] => none
  | c :: rest => if pySpace c then some (rest.dropWhile pySpace) else none

/-- Capture `[start][cont]*` (greedy; nothing follows the capture in either
pattern, so maximal is exact) at the head of the input. -/
def identFrom (startP contP : Char → Bool) (s : List Char) : Option String :=
  match s with
  | [] => none
  | c :: rest => if startP c then some (String.mk (c :: rest.takeWhile contP)) else none

def pubChars : List Char := ['p', 'u', 'b']

def asyncChars : List Char := ['a', 's', 'y', 'n', 'c']

def fnChars : List Char := ['f', 'n']

def implChars : List Char := ['i', 'm', 'p', 'l']

def forChars : List Char := ['f', 'o', 'r']

/-- One attempt of the fn pattern at a fixed start position (the caller has
checked the leading `\b`) for a fixed participation of the two optional
groups.  The `\b` of `(\basync\s+)?` always holds where the group is tried:
the preceding character is either the caller's boundary or the whitespace
after `pub`. -/
def tryFnCombo (doPub doAsync : Bool) (s : List Char) : Option String := do
  let s1 ← if doPub then stripLit pubChars s >>= ws1 else some s
  let s2 ← if doAsync then stripLit asyncChars s1 >>= ws1 else some s1
  let s3 ← stripLit fnChars s2
  let s4 ← ws1 s3
  identFrom identStartChar isWordChar s4

/-- The fn pattern at one start position: optional groups tried in the
regex's backtracking order (each `(…)?` prefers to match). -/
def tryFnAt (s : List Char) : Option String :=
  tryFnCombo true true s <|> tryFnCombo true false s <|>
    tryFnCombo false true s <|> tryFnCombo false false s

/-- `\b` between `prev` (character before the position, `none` at the
string start) and `next` (character at the position, `none` at the end). -/
def boundary (prev next : Option Char) : Bool :=
  (match prev with | none => false | some c => isWordChar c) !=
    (match next with | none => false | some c => isWordChar c)

/-- `re.search` of the fn pattern: first start position (left to right)
whose boundary holds and whose tail matches wins; the captured identifier
(group 3) is returned. -/
def fnSearch (cs : List Char) : Option String :=
  (List.range (cs.length + 1)).findSome? fun i =>
    if boundary (if i = 0 then none else cs.get? (i - 1)) (cs.get? i) then
      tryFnAt (cs.drop i)
    else none

/-- `\s+for\s+` followed by the capture, tried after the lazy `.*?` has
consumed some characters.  Both `\s+` are deterministic here (`for` and the
capture start with non-whitespace). -/
def tryImplFor (identCont : Char → Bool) (r : List Char) : Option String := do
  let r1 ← ws1 r
  let r2 ← stripLit forChars r1
  let r3 ← ws1 r2
  identFrom identStartChar identCont r3

/-- The impl pattern at one start position.  The `\s+` after `impl` is
greedy (longest first); for each of its lengths the optional group is
preferred, with `.*?` lazy (shortest first, never across a newline), and
skipping the group is the last resort. -/
def tryImplAt (identCont : Char → Bool) (s : List Char) : Option String := do
  let s1 ← stripLit implChars s
  let maxWs := (s1.takeWhile pySpace).length
  if maxWs = 0 then none
  else
    (List.range maxWs).findSome? fun d =>
      let r := s1.drop (maxWs - d)
      ((List.range (r.length + 1)).findSome? fun k =>
        if (r.take k).any (· = '\n') then none
        else tryImplFor identCont (r.drop k)) <|>
        identFrom identStartChar identCont r

/-- `re.search` of the impl pattern (no `\b` in this pattern): first
matching start position wins. -/
def implSearch (identCont : Char → Bool) (cs : List Char) : Option String :=
  (List.range (cs.length + 1)).findSome? fun i => tryImplAt identCont (cs.drop i)

/-- Label built from the impl capture. -/
def implLabel (t : String) : String := "impl " ++ t

/-- One line of `extract_function_at_line` in the direct-JSON script: the
fn pattern is tried first, then the impl pattern. -/
def matchLineJson (line : String) : Option String :=
  fnSearch line.toList <|> (implSearch implContJson line.toList).map implLabel

/-- One line of `extract_function_at_line` in the HTML script: identical
but for the impl identifier class. -/
def matchLineHtml (line : String) : Option String :=
  fnSearch line.toList <|> (implSearch isWordChar line.toList).map implLabel

example : fnSearch ("pub async fn foo(x: u8)".toList) = some ("foo") := by decide
example : matchLineJson ("impl Display for Vec<T> \x7b") = some ("impl Vec<T>") := by decide
example : matchLineHtml ("impl Foo \x7b") = some ("impl Foo") := by decide
example : matchLineJson ("let x = 1;") = none := by decide

/-- Default used when indexing lines (never reached: the index is guarded
by `i < len(lines)`). -/
def blankLine : String := ""

/-! ### Backward scan and function attribution -/

/-- Python `range(a, b, -1)` on non-negative bounds: `a, a-1, …, b+1`
(empty when `a ≤ b`). -/
def pyRangeDown (a b : Nat) : List Nat := (List.range' (b + 1) (a - b)).reverse

/-- The 0-based indices examined for target line `n` with window constant
`w`: `range(max(0, line_num - 1), max(0, line_num - w), -1)` (`Int.toNat`
is Python's `max(0, ·)` on these arguments). -/
def scanWindow (w : Nat) (n : ℤ) : List Nat := pyRangeDown (n - 1).toNat (n - w).toNat

/-- `extract_function_at_line` of analyze-coverage-json.py.  `readRes`
stands for the attempt to read the file from disk: `Except.error` covers
both the `not file_path.exists()` early return and any exception caught by
the surrounding `try`/`except`; `Except.ok` carries `f.readlines()`.
Indices at or past the end of the file are skipped (`if i < len(lines)`),
and the first scanned line matching either pattern yields its label. -/
def extract_function_at_line_json (readRes : Except String (List String)) (lineNum : ℤ) : String :=
  match readRes with
  | .error _ => "unknown"
  | .ok lines =>
    match (scanWindow 30 lineNum).findSome? (fun i =>
        if i < lines.length then matchLineJson (lines.getD i blankLine) else none) with
    | some label => label
    | none => "unknown"

def nlSep : String := "\n"

/-- Python `content.split('\n')`: split on every newline, keeping empty
pieces, with `[""]` for the empty string. -/
def splitNlAux (cur : List Char) : List Char → List String
  | [] => [String.mk cur.reverse]
  | c :: rest =>
    if c = '\n' then String.mk cur.reverse :: splitNlAux [] rest
    else splitNlAux (c :: cur) rest

/-- `content.split('\n')` of a whole string. -/
def pySplitLines (content : String) : List String := splitNlAux [] content.toList

/-- `extract_function_at_line` of analyze-coverage.py: the file content is
an in-memory string split on newlines, and the window constant is 20. -/
def extract_function_at_line_html (content : String) (lineNum : ℤ) : String :=
  let lines := pySplitLines content
  match (scanWindow 20 lineNum).findSome? (fun i =>
      if i < lines.length then matchLineHtml (lines.getD i blankLine) else none) with
  | some label => label
  | none => "unknown"

/-- `defaultdict(list)` with `.append`, as an insertion-ordered association
list. -/
def dictAppend (d : List (String × List ℤ)) (k : String) (v : ℤ) : List (String × List ℤ) :=
  match d with
  | [] => [(k, [v])]
  | kv :: rest => if kv.1 = k then (kv.1, kv.2 ++ [v]) :: rest else kv :: dictAppend rest k v

/-- `group_uncovered_by_function` of analyze-coverage-json.py: attribute
each of the first 50 uncovered lines (every call reads the same file, hence
the single `readRes`) and group the line numbers by label in
first-occurrence order. -/
def group_uncovered_by_function (readRes : Except String (List String))
    (uncovered : List ℤ) : List (String × List ℤ) :=
  (uncovered.take 50).foldl
    (fun d ln => dictAppend d (extract_function_at_line_json readRes ln) ln) []

/-- The loop of `find_uncovered_functions` of analyze-coverage.py,
carrying the `seen_funcs` set. -/
def findUncoveredAux (content : String) (seen : List String) :
    List ℤ → List (ℤ × String)
  | [] => []
  | ln :: rest =>
    let fn := extract_function_at_line_html content ln
    if fn ∉ seen ∧ fn ≠ "unknown" then
      (ln, fn) :: findUncoveredAux content (fn :: seen) rest
    else findUncoveredAux content seen rest

/-- `find_uncovered_functions` of analyze-coverage.py: pairs
`(line, label)` for the first uncovered line of each label, labels
`"unknown"` dropped. -/
def find_uncovered_functions (content : String) (uncovered : List ℤ) : List (ℤ × String) :=
  findUncoveredAux content [] uncovered

/-! ### Per-file analysis and the overall summary -/

/-- A trace entry of the direct-JSON report; `stats.Line` may be absent,
and `trace.get('stats', {}).get('Line', 0)` defaults it to 0. -/
structure JTrace where
  line : ℤ
  statsLine : Option ℤ
deriving DecidableEq

/-- Hit count of a direct-JSON trace. -/
def JTrace.hits (t : JTrace) : ℤ := t.statsLine.getD 0

/-- A trace entry of the HTML report; `trace['stats']['Line']` is
required. -/
structure HTrace where
  line : ℤ
  statsLine : ℤ
deriving DecidableEq

/-- The per-file record both scripts build (the HTML script additionally
stores the content string, which plays no part in the counts). -/
structure FileAnalysis where
  path : String
  total_lines : Nat
  covered_lines : Nat
  uncovered_lines : Nat
  coverage_percent : ℚ
  uncovered_line_numbers : List ℤ
deriving DecidableEq

/-- `analyze_file_coverage` of analyze-coverage-json.py.  Counts are `Nat`;
`uncovered = total - covered` is safe because the covered lines are a
filtered sublist of the traces.  The percentage is exact rational
arithmetic in place of Python floats. -/
def analyze_file_coverage_json (filePath : String) (traces : List JTrace) : FileAnalysis :=
  let total := traces.length
  let covered := (traces.filter (fun t => 0 < t.hits)).length
  { path := filePath
    total_lines := total
    covered_lines := covered
    uncovered_lines := total - covered
    coverage_percent := if 0 < total then (covered : ℚ) / (total : ℚ) * 100 else 0
    uncovered_line_numbers := (traces.filter (fun t => t.hits = 0)).map JTrace.line }

/-- `analyze_file_coverage` of analyze-coverage.py (path pre-joined). -/
def analyze_file_coverage_html (path : String) (traces : List HTrace) : FileAnalysis :=
  let total := traces.length
  let covered := (traces.filter (fun t => 0 < t.statsLine)).length
  { path := path
    total_lines := total
    covered_lines := covered
    uncovered_lines := total - covered
    coverage_percent := if 0 < total then (covered : ℚ) / (total : ℚ) * 100 else 0
    uncovered_line_numbers := (traces.filter (fun t => t.statsLine = 0)).map HTrace.line }

def rsExt : String := ".rs"

/-- The per-file loop of `print_summary` in the direct-JSON script: only
paths ending in `.rs` with a nonempty trace list are analyzed. -/
def analyzeAllJson (traces : List (String × List JTrace)) : List FileAnalysis :=
  traces.filterMap fun pt =>
    if pt.1.endsWith rsExt ∧ pt.2 ≠ [] then
      some (analyze_file_coverage_json pt.1 pt.2)
    else none

/-- The overall percentage printed by `print_summary` — the same
expression in both scripts: per-file totals and covered counts are summed
first and divided once. -/
def overallCoverage (analyses : List FileAnalysis) : ℚ :=
  let totalAll : Nat := (analyses.map (·.total_lines)).sum
  let coveredAll : Nat := (analyses.map (·.covered_lines)).sum
  if 0 < totalAll then (coveredAll : ℚ) / (totalAll : ℚ) * 100 else 0

/-- Modelled from the spec's wording for the overall percentage: covered
sum over total sum times 100 (`ℚ` division, so the `T = 0` case is 0 as
well). -/
def specOverallCoverage (analyses : List FileAnalysis) : ℚ :=
  ((((analyses.map (·.covered_lines)).sum : Nat)) : ℚ) /
    ((((analyses.map (·.total_lines)).sum : Nat)) : ℚ) * 100

/-- The alternative the spec rules out: the arithmetic mean of the
per-file percentages. -/
def meanOfPercentages (analyses : List FileAnalysis) : ℚ :=
  (analyses.map (·.coverage_percent)).sum / (analyses.length : ℚ)

/-! ### Concrete inputs used by witnesses and counterexamples -/

/-- A five-line file whose fifth line is itself a declaration while the
four lines before it match nothing. -/
def cexLines : List String := ["", "", "", "", "fn probe() {}"]

/-- A twelve-line file with a declaration on line 1 only. -/
def winLines : List String := ["fn deep() {}"] ++ List.replicate 10 "" ++ ["x"]

/-- The same file as one content string. -/
def winContent : String := String.intercalate nlSep winLines

/-- A six-line source with two functions. -/
def demoContent : String :=
  String.intercalate nlSep ["fn a() \x7b", "x", "\x7d", "fn b() \x7b", "y", "\x7d"]

/-- Uncovered lines fed to the HTML grouping demo (line 2 is attributed
`"unknown"`: only index 1 is scanned; lines past the end scan nothing). -/
def demoUncov : List ℤ := [2, 2, 5, 100]

/-- A read failure message. -/
def errDemo : String := "no such file"

/-- 51 uncovered line numbers 1..51. -/
def fiftyOne : List ℤ := (List.range 51).map fun i => ((i : ℤ) + 1)

def pathA : String := "src/lib.rs"

def pathB : String := "src/main.rs"

def jtsDemo : List JTrace := [⟨10, some 2⟩, ⟨11, none⟩, ⟨12, some 0⟩]

def htsDemo : List HTrace := [⟨10, 0⟩, ⟨11, 3⟩]

/-- Two analyses of unequal size: 1 of 1 lines covered, then 0 of 3. -/
def demoAnalysesUnequal : List FileAnalysis :=
  [analyze_file_coverage_json pathA [⟨1, some 1⟩],
    analyze_file_coverage_json pathB [⟨1, none⟩, ⟨2, none⟩, ⟨3, none⟩]]

/-! ### C1: duplicates in `summarize_line_ranges` -/

/-- C1 counterexample: duplicates are not absorbed.  A duplicate of the
current run's end closes the run, so `[3,3,4]` summarizes to `"3, 3-4"`
while the deduplicated `[3,4]` summarizes to `"3-4"`. -/
theorem summarize_duplicates_counterexample :
    summarize_line_ranges [3, 3, 4] = "3, 3-4" ∧
    summarize_line_ranges [3, 4] = "3-4" ∧
    summarize_line_ranges [3, 3, 4] ≠ summarize_line_ranges [3, 4] :=
  ⟨by decide, by decide, by decide⟩

/-- C1 amended: a duplicate equal to the current run's end does not extend
the run, but it does start a new one — the pending range is emitted and a
fresh run begins at the duplicate value — so summarizing a list with
duplicates can differ from summarizing it with duplicates removed. -/
theorem rangeStep_duplicate_starts_new_run (st en : ℤ) (rs : List String) :
    rangeStep (st, en, rs) en = (en, en, rs ++ [renderRange st en]) := by
  simp only [rangeStep]
  rw [if_neg (by omega)]

/-! ### C3: concrete range summaries -/

/-- C3: `summarize_line_ranges` yields `"1-3, 7, 9-10"` on
`[1,2,3,7,9,10]` (three ranges, no marker), `"1-2, 5-6, 9-10 ..."` on
`[1,2,5,6,9,10,13,14]` (four ranges, truncated), and `""` on `[]`. -/
theorem summarize_concrete_outputs :
    summarize_line_ranges [1, 2, 3, 7, 9, 10] = "1-3, 7, 9-10" ∧
    summarize_line_ranges [1, 2, 5, 6, 9, 10, 13, 14] = "1-2, 5-6, 9-10 ..." ∧
    summarize_line_ranges [] = "" :=
  ⟨by decide, by decide, rfl⟩

/-! ### C4: permutation invariance of the summarizer -/

/-- C4: `summarize_line_ranges` depends only on the multiset of its input
— any permutation produces the same string, because the input is sorted
before runs are merged. -/
theorem summarize_perm_invariant (l l' : List ℤ) (h : l.Perm l') :
    summarize_line_ranges l = summarize_line_ranges l' := by
  have hs : List.insertionSort (· ≤ ·) l = List.insertionSort (· ≤ ·) l' :=
    List.eq_of_perm_of_sorted
      ((List.perm_insertionSort _ l).trans (h.trans (List.perm_insertionSort _ l').symm))
      (List.sorted_insertionSort _ l) (List.sorted_insertionSort _ l')
  unfold summarize_line_ranges
  rw [hs]

/-- C4 witness: `[5,3,4]` and `[3,4,5]` agree, both giving `"3-5"`. -/
theorem summarize_perm_invariant_witness :
    summarize_line_ranges [5, 3, 4] = summarize_line_ranges [3, 4, 5] ∧
    summarize_line_ranges [3, 4, 5] = "3-5" :=
  ⟨summarize_perm_invariant [5, 3, 4] [3, 4, 5] (by decide), by decide⟩

/-! ### C6: count partition in both analyzers -/

/-- C6: for trace lists carrying non-negative hit counts and total ≥ 1,
covered + uncovered = total and both are bounded by total, in both
scripts. -/
theorem analyze_counts_partition (jts : List JTrace) (hts : List HTrace)
    (p q : String)
    (hj : ∀ t ∈ jts, 0 ≤ t.hits) (hh : ∀ t ∈ hts, 0 ≤ t.statsLine)
    (hTj : 1 ≤ (analyze_file_coverage_json p jts).total_lines)
    (hTh : 1 ≤ (analyze_file_coverage_html q hts).total_lines) :
    ((analyze_file_coverage_json p jts).covered_lines +
        (analyze_file_coverage_json p jts).uncovered_lines =
        (analyze_file_coverage_json p jts).total_lines ∧
      (analyze_file_coverage_json p jts).covered_lines ≤
        (analyze_file_coverage_json p jts).total_lines ∧
      (analyze_file_coverage_json p jts).uncovered_lines ≤
        (analyze_file_coverage_json p jts).total_lines) ∧
    ((analyze_file_coverage_html q hts).covered_lines +
        (analyze_file_coverage_html q hts).uncovered_lines =
        (analyze_file_coverage_html q hts).total_lines ∧
      (analyze_file_coverage_html q hts).covered_lines ≤
        (analyze_file_coverage_html q hts).total_lines ∧
      (analyze_file_coverage_html q hts).uncovered_lines ≤
        (analyze_file_coverage_html q hts).total_lines) := by
  have cj : (jts.filter (fun t => 0 < t.hits)).length ≤ jts.length :=
    List.length_filter_le _ _
  have ch : (hts.filter (fun t => 0 < t.statsLine)).length ≤ hts.length :=
    List.length_filter_le _ _
  simp only [analyze_file_coverage_json, analyze_file_coverage_html]
  refine ⟨⟨by omega, by omega, by omega⟩, ⟨by omega, by omega, by omega⟩⟩

/-- C6 witness at concrete trace lists. -/
theorem analyze_counts_partition_witness :
    (analyze_file_coverage_json pathA jtsDemo).covered_lines +
        (analyze_file_coverage_json pathA jtsDemo).uncovered_lines =
      (analyze_file_coverage_json pathA jtsDemo).total_lines ∧
    (analyze_file_coverage_html pathB htsDemo).covered_lines +
        (analyze_file_coverage_html pathB htsDemo).uncovered_lines =
      (analyze_file_coverage_html pathB htsDemo).total_lines :=
  ⟨(analyze_counts_partition jtsDemo htsDemo pathA pathB (by decide) (by decide)
      (by decide) (by decide)).1.1,
    (analyze_counts_partition jtsDemo htsDemo pathA pathB (by decide) (by decide)
      (by decide) (by decide)).2.1⟩

/-! ### C7: empty trace list -/

/-- C7: on the empty trace list both analyzers report total 0 and
percentage exactly 0 — the guard `if total_lines > 0` takes its `else`
branch, so the division `covered/total` is never formed. -/
theorem analyze_empty_percent_zero (p q : String) :
    (analyze_file_coverage_json p []).total_lines = 0 ∧
    (analyze_file_coverage_json p []).coverage_percent = 0 ∧
    (analyze_file_coverage_html q []).total_lines = 0 ∧
    (analyze_file_coverage_html q []).coverage_percent = 0 :=
  ⟨rfl, rfl, rfl, rfl⟩

/-! ### Helper lemmas shared by several results -/

/-- `findSome?` misses when every element maps to `none`. -/
theorem findSome_none_of_forall {α β : Type} (f : α → Option β) :
    ∀ l : List α, (∀ x ∈ l, f x = none) → l.findSome? f = none := by
  intro l
  induction l with
  | nil => intro _; rfl
  | cons a as ih =>
    intro h
    have ha := h a (by simp)
    rw [List.findSome?_cons, ha]
    exact ih fun x hx => h x (by simp [hx])

/-- Folding `dictAppend` with one fixed key over a singleton dictionary for
that key appends every value in order. -/
theorem foldl_dictAppend_const (k : String) :
    ∀ (l : List ℤ) (acc : List ℤ),
      l.foldl (fun d ln => dictAppend d k ln) [(k, acc)] = [(k, acc ++ l)] := by
  intro l
  induction l with
  | nil => intro acc; simp
  | cons v rest ih =>
    intro acc
    have hstep : dictAppend [(k, acc)] k v = [(k, acc ++ [v])] := by
      simp [dictAppend]
    simp only [List.foldl_cons, hstep, ih]
    simp

/-- A failed read sends every processed uncovered line to the `"unknown"`
bucket of `group_uncovered_by_function`. -/
theorem group_error_eq (e : String) (uncovered : List ℤ) :
    group_uncovered_by_function (Except.error e) uncovered =
      if uncovered = [] then [] else [("unknown", uncovered.take 50)] := by
  unfold group_uncovered_by_function
  cases uncovered with
  | nil => simp
  | cons v rest =>
    have h50 : (v :: rest).take 50 = v :: rest.take 49 := rfl
    have hf : (fun (d : List (String × List ℤ)) ln =>
        dictAppend d (extract_function_at_line_json (Except.error e) ln) ln) =
        fun d ln => dictAppend d "unknown" ln := by
      funext d ln
      rfl
    rw [h50, hf]
    simp only [List.foldl_cons]
    have h1 : dictAppend [] "unknown" v = [("unknown", [v])] := rfl
    rw [h1, foldl_dictAppend_const]
    simp [h50]

/-- Everything `findUncoveredAux` emits: the label is new, not
`"unknown"`, agrees with the attribution of the paired line, and the
paired line is the first one in the remaining input whose attribution is
that label (up to labels already seen). -/
theorem findUncoveredAux_mem_spec (content : String) :
    ∀ (uncov : List ℤ) (seen : List String) (p : ℤ × String),
      p ∈ findUncoveredAux content seen uncov →
      p.2 ∉ seen ∧ p.2 ≠ "unknown" ∧
        p.2 = extract_function_at_line_html content p.1 ∧
        ∃ l₁ l₂, uncov = l₁ ++ p.1 :: l₂ ∧
          ∀ x ∈ l₁, extract_function_at_line_html content x ≠ p.2 ∨
            extract_function_at_line_html content x ∈ seen := by
  intro uncov
  induction uncov with
  | nil =>
    intro seen p hp
    simp [findUncoveredAux] at hp
  | cons ln rest ih =>
    intro seen p hp
    simp only [findUncoveredAux] at hp
    by_cases hc : extract_function_at_line_html content ln ∉ seen ∧
        extract_function_at_line_html content ln ≠ "unknown"
    · rw [if_pos hc] at hp
      rcases List.mem_cons.mp hp with heq | hmem
      · subst heq
        exact ⟨hc.1, hc.2, rfl, [], rest, rfl, by simp⟩
      · obtain ⟨h1, h2, h3, l₁, l₂, heq, hall⟩ :=
          ih (extract_function_at_line_html content ln :: seen) p hmem
        have hne : p.2 ∉ seen := fun hs => h1 (List.mem_cons_of_mem _ hs)
        refine ⟨hne, h2, h3, ln :: l₁, l₂, by rw [heq, List.cons_append], ?_⟩
        intro x hx
        rcases List.mem_cons.mp hx with rfl | hx'
        · left
          intro hcontr
          exact h1 (by rw [← hcontr]; exact List.mem_cons_self _ _)
        · rcases hall x hx' with hne' | hin
          · exact Or.inl hne'
          · rcases List.mem_cons.mp hin with heq2 | hs
            · left
              intro hcontr
              exact h1 (by rw [← hcontr, heq2]; exact List.mem_cons_self _ _)
            · exact Or.inr hs
    · rw [if_neg hc] at hp
      obtain ⟨h1, h2, h3, l₁, l₂, heq, hall⟩ := ih seen p hp
      have hor : extract_function_at_line_html content ln ∈ seen ∨
          extract_function_at_line_html content ln = "unknown" := by
        by_cases h5 : extract_function_at_line_html content ln ∈ seen
        · exact Or.inl h5
        · refine Or.inr ?_
          by_contra h6
          exact hc ⟨h5, h6⟩
      refine ⟨h1, h2, h3, ln :: l₁, l₂, by rw [heq, List.cons_append], ?_⟩
      intro x hx
      rcases List.mem_cons.mp hx with rfl | hx'
      · rcases hor with hin | hunk
        · exact Or.inr hin
        · left
          rw [hunk]
          exact fun hcontr => h2 hcontr.symm
      · exact hall x hx'

/-- The labels emitted by `findUncoveredAux` never repeat. -/
theorem findUncoveredAux_labels_nodup (content : String) :
    ∀ (uncov : List ℤ) (seen : List String),
      ((findUncoveredAux content seen uncov).map Prod.snd).Nodup := by
  intro uncov
  induction uncov with
  | nil => intro seen; simp [findUncoveredAux]
  | cons ln rest ih =>
    intro seen
    simp only [findUncoveredAux]
    by_cases hc : extract_function_at_line_html content ln ∉ seen ∧
        extract_function_at_line_html content ln ≠ "unknown"
    · rw [if_pos hc]
      simp only [List.map_cons]
      refine List.nodup_cons.mpr ⟨?_, ih _⟩
      intro hmem
      rcases List.mem_map.mp hmem with ⟨p, hp, hp2⟩
      have hspec := (findUncoveredAux_mem_spec content rest
        (extract_function_at_line_html content ln :: seen) p hp).1
      exact hspec (by rw [hp2]; exact List.mem_cons_self _ _)
    · rw [if_neg hc]
      exact ih seen

/-! ### C2: the bounded backward window -/

/-- C2 counterexample: the four lines before the target match nothing, yet
the result is not `"unknown"` — the scan begins at the target line itself
(0-based index `line_num - 1`), which is a declaration here. -/
theorem extract_window_counterexample :
    cexLines.take 4 = [blankLine, blankLine, blankLine, blankLine] ∧
    matchLineJson blankLine = none ∧
    extract_function_at_line_json (Except.ok cexLines) 5 = "probe" ∧
    extract_function_at_line_json (Except.ok cexLines) 5 ≠ "unknown" :=
  ⟨by decide, by decide, by decide, by decide⟩

/-- C2 amended: when no line of the scanned window — the target line
itself and at most 28 prior lines in the direct-JSON script, 18 in the
HTML script — matches either pattern, the result is `"unknown"`, no matter
what appears further back in the file. -/
theorem extract_unknown_outside_window (lines : List String) (content : String)
    (n m : ℤ)
    (hj : ∀ i ∈ scanWindow 30 n, i < lines.length →
      matchLineJson (lines.getD i blankLine) = none)
    (hh : ∀ i ∈ scanWindow 20 m, i < (pySplitLines content).length →
      matchLineHtml ((pySplitLines content).getD i blankLine) = none) :
    extract_function_at_line_json (Except.ok lines) n = "unknown" ∧
    extract_function_at_line_html content m = "unknown" := by
  constructor
  · have h0 : (scanWindow 30 n).findSome? (fun i =>
        if i < lines.length then matchLineJson (lines.getD i blankLine) else none) =
        none := by
      apply findSome_none_of_forall
      intro i hi
      by_cases hl : i < lines.length
      · simp only [if_pos hl]
        exact hj i hi hl
      · simp only [if_neg hl]
    simp only [extract_function_at_line_json, h0]
  · have h0 : (scanWindow 20 m).findSome? (fun i =>
        if i < (pySplitLines content).length then
          matchLineHtml ((pySplitLines content).getD i blankLine)
        else none) = none := by
      apply findSome_none_of_forall
      intro i hi
      by_cases hl : i < (pySplitLines content).length
      · simp only [if_pos hl]
        exact hh i hi hl
      · simp only [if_neg hl]
    simp only [extract_function_at_line_html, h0]

/-- C2 witness: a declaration on line 1, target line 40 — outside both
windows, so both scripts answer `"unknown"`. -/
theorem extract_unknown_outside_window_witness :
    extract_function_at_line_json (Except.ok winLines) 40 = "unknown" ∧
    extract_function_at_line_html winContent 40 = "unknown" ∧
    matchLineJson (winLines.getD 0 blankLine) = some ("deep") :=
  ⟨(extract_unknown_outside_window winLines winContent 40 40 (by decide) (by decide)).1,
    (extract_unknown_outside_window winLines winContent 40 40 (by decide) (by decide)).2,
    by decide⟩

/-! ### C5: the overall percentage is a ratio of sums -/

/-- C5: the overall figure of `print_summary` equals covered-sum over
total-sum times 100 (both scripts compute this very expression), and on
files of unequal sizes (1 and 3 lines here) it differs from the mean of
the per-file percentages. -/
theorem overall_is_ratio_of_sums :
    (∀ analyses : List FileAnalysis,
      overallCoverage analyses = specOverallCoverage analyses) ∧
    overallCoverage demoAnalysesUnequal ≠ meanOfPercentages demoAnalysesUnequal ∧
    demoAnalysesUnequal.map (·.total_lines) = [1, 3] := by
  refine ⟨?_, ?_, by decide⟩
  · intro as
    simp only [overallCoverage, specOverallCoverage]
    split
    · rfl
    · next h =>
      have h0 : ((as.map (·.total_lines)).sum : Nat) = 0 := by omega
      simp [h0]
  · have hov : overallCoverage demoAnalysesUnequal = 25 := by
      simp [overallCoverage, demoAnalysesUnequal, analyze_file_coverage_json,
        JTrace.hits, List.filter]
      norm_num
    have hm : meanOfPercentages demoAnalysesUnequal = 50 := by
      simp [meanOfPercentages, demoAnalysesUnequal, analyze_file_coverage_json,
        JTrace.hits, List.filter]
      norm_num
    rw [hov, hm]
    norm_num

/-! ### C8: read failures degrade to "unknown" -/

/-- C8: when the source file is missing or reading it raises, the
direct-JSON attribution returns `"unknown"` for every line — a total
function, so the run continues: the grouping still produces its dictionary,
with every processed line filed under `"unknown"`. -/
theorem extract_read_failure_unknown (e : String) (n : ℤ) (uncovered : List ℤ) :
    extract_function_at_line_json (Except.error e) n = "unknown" ∧
    group_uncovered_by_function (Except.error e) uncovered =
      (if uncovered = [] then [] else [("unknown", uncovered.take 50)]) :=
  ⟨rfl, group_error_eq e uncovered⟩

/-! ### C9: line 1 scans nothing; index 0 is never scanned -/

/-- C9: with target line 1 the backward range is empty, so both scripts
answer `"unknown"` whatever the file holds; and the first line of the file
(0-based index 0) is outside the scanned window for every target line,
because Python's `range` never yields its stop value. -/
theorem extract_line_one_unknown (r : Except String (List String))
    (content : String) (w : Nat) (n : ℤ) :
    extract_function_at_line_json r 1 = "unknown" ∧
    extract_function_at_line_html content 1 = "unknown" ∧
    0 ∉ scanWindow w n := by
  refine ⟨?_, rfl, ?_⟩
  · cases r with
    | error e => rfl
    | ok lines => rfl
  · simp only [scanWindow, pyRangeDown, List.mem_reverse]
    intro hmem
    have := List.mem_range'.mp hmem
    omega

/-- C9 witness: a file whose first line is a declaration still yields
`"unknown"` at target line 1, and index 0 is outside the window of target
line 5. -/
theorem extract_line_one_unknown_witness :
    extract_function_at_line_json (Except.ok winLines) 1 = "unknown" ∧
    0 ∉ scanWindow 30 5 :=
  ⟨(extract_line_one_unknown (Except.ok winLines) winContent 30 5).1,
    (extract_line_one_unknown (Except.ok winLines) winContent 30 5).2.2⟩

/-! ### C10: deduplicated labels in the HTML script -/

/-- C10 counterexample: with 51 uncovered lines and a missing source file,
the direct-JSON grouping holds only the first 50 line numbers under
`"unknown"` — not all of them, as the claim's contrast asserts. -/
theorem group_unknown_truncation_counterexample :
    group_uncovered_by_function (Except.error errDemo) fiftyOne =
      [("unknown", fiftyOne.take 50)] ∧
    group_uncovered_by_function (Except.error errDemo) fiftyOne ≠
      [("unknown", fiftyOne)] :=
  ⟨by decide, by decide⟩

/-- C10 amended: `find_uncovered_functions` returns each label at most
once, paired with the first uncovered line attributed to it, and never the
label `"unknown"` (failed attributions are dropped); the direct-JSON
script instead groups failed attributions under the `"unknown"` key with
the line numbers of the processed lines (the first 50). -/
theorem find_uncovered_functions_dedup :
    (∀ (content : String) (uncov : List ℤ),
      ((find_uncovered_functions content uncov).map Prod.snd).Nodup) ∧
    (∀ (content : String) (uncov : List ℤ) (p : ℤ × String),
      p ∈ find_uncovered_functions content uncov →
      p.2 ≠ "unknown" ∧ p.2 = extract_function_at_line_html content p.1 ∧
      ∃ l₁ l₂, uncov = l₁ ++ p.1 :: l₂ ∧
        ∀ x ∈ l₁, extract_function_at_line_html content x ≠ p.2) ∧
    (∀ (e : String) (uncov : List ℤ), uncov ≠ [] →
      group_uncovered_by_function (Except.error e) uncov =
        [("unknown", uncov.take 50)]) := by
  refine ⟨?_, ?_, ?_⟩
  · intro content uncov
    exact findUncoveredAux_labels_nodup content uncov []
  · intro content uncov p hp
    obtain ⟨_, h2, h3, l₁, l₂, heq, hall⟩ :=
      findUncoveredAux_mem_spec content uncov [] p hp
    refine ⟨h2, h3, l₁, l₂, heq, ?_⟩
    intro x hx
    rcases hall x hx with hne | hin
    · exact hne
    · exact absurd hin (List.not_mem_nil _)
  · intro e uncov hne
    rw [group_error_eq, if_neg hne]

/-- C10 witness at a concrete file with two functions and a repeated,
unattributable uncovered line. -/
theorem find_uncovered_functions_dedup_witness :
    ((find_uncovered_functions demoContent demoUncov).map Prod.snd).Nodup ∧
    extract_function_at_line_html demoContent 5 = "b" ∧
    group_uncovered_by_function (Except.error errDemo) demoUncov =
      [("unknown", demoUncov.take 50)] :=
  ⟨find_uncovered_functions_dedup.1 demoContent demoUncov,
    ((find_uncovered_functions_dedup.2.1 demoContent demoUncov ((5 : ℤ), "b")
      (by decide)).2.1).symm,
    find_uncovered_functions_dedup.2.2 errDemo demoUncov (by decide)⟩
